import Mathlib

/-!
Verification of the sqlitReST REST core: a shallow embedding of the
request-to-SQL builder (pkg/engine/builder.go, errors.go, embedding.go),
the row-level-security policy engine (pkg/policies), and the JWT auth
verifier (pkg/auth), together with theorems settling the specification
claims about them.

Go `string` values are modelled by Lean `String`; the Go standard-library
`strings` helpers used by the source (Split, ReplaceAll, Replace, TrimSpace,
TrimPrefix, HasPrefix, Contains, Index, Join, ToUpper, ToLower) are
re-implemented below on `List Char` with structural recursion so that every
definition evaluates inside the kernel.  All strings handled by the source
are ASCII, where Go's byte indices coincide with character indices.
-/

namespace SqlitREST

/-- A positional SQL parameter (one entry of Go's `[]interface{}` argument
vector): the source only ever appends strings (filter and body values) and
integers (limit, offset). -/
inductive SQLArg where
  | str : String → SQLArg
  | int : Int → SQLArg
deriving DecidableEq

/-- Character-level search for the first occurrence of `pat` (Go
`strings.Index`). -/
def listIndexOfSubstr (pat : List Char) : List Char → Option Nat
  | [] => if pat.isPrefixOf ([] : List Char) then some 0 else none
  | c :: t =>
    if pat.isPrefixOf (c :: t) then some 0
    else (listIndexOfSubstr pat t).map (· + 1)

/-- Go `strings.Contains`. -/
def strContains (s pat : String) : Bool :=
  (listIndexOfSubstr pat.data s.data).isSome

/-- Go `strings.Index`, in characters (`none` for Go's `-1`). -/
def strIndexOf (s pat : String) : Option Nat :=
  listIndexOfSubstr pat.data s.data

/-- Fuel-driven core of `strings.ReplaceAll`: replaces occurrences left to
right without overlap.  Fuel `s.length` is enough for a non-empty pattern. -/
def listReplaceAll : Nat → List Char → List Char → List Char → List Char
  | 0, s, _, _ => s
  | _ + 1, [], _, _ => []
  | fuel + 1, c :: t, pat, rep =>
    if pat.isPrefixOf (c :: t) then
      rep ++ listReplaceAll fuel ((c :: t).drop pat.length) pat rep
    else c :: listReplaceAll fuel t pat rep

/-- Go `strings.ReplaceAll`.  The source never calls it with an empty
pattern; that case is mapped to the identity. -/
def strReplaceAll (s pat rep : String) : String :=
  if pat.data.isEmpty then s
  else String.mk (listReplaceAll s.data.length s.data pat.data rep.data)

/-- Core of Go `strings.Replace(s, pat, rep, 1)`: first occurrence only. -/
def listReplaceFirst : List Char → List Char → List Char → List Char
  | [], _, _ => []
  | c :: t, pat, rep =>
    if pat.isPrefixOf (c :: t) then rep ++ (c :: t).drop pat.length
    else c :: listReplaceFirst t pat rep

/-- Go `strings.Replace(s, pat, rep, 1)`. -/
def strReplaceFirst (s pat rep : String) : String :=
  String.mk (listReplaceFirst s.data pat.data rep.data)

/-- Fuel-driven core of Go `strings.Split` for a non-empty separator;
`cur` accumulates the current field reversed. -/
def listSplitOn : Nat → List Char → List Char → List Char → List (List Char)
  | 0, s, _, cur => [cur.reverse ++ s]
  | _ + 1, [], _, cur => [cur.reverse]
  | fuel + 1, c :: t, sep, cur =>
    if sep.isPrefixOf (c :: t) then
      cur.reverse :: listSplitOn fuel ((c :: t).drop sep.length) sep []
    else listSplitOn fuel t sep (c :: cur)

/-- Go `strings.Split` (the source only splits on "," and "."). -/
def strSplitOn (s sep : String) : List String :=
  if sep.data.isEmpty then [s]
  else (listSplitOn (s.data.length + 1) s.data sep.data []).map String.mk

/-- Go `strings.ToUpper` (ASCII). -/
def strToUpper (s : String) : String := String.mk (s.data.map Char.toUpper)

/-- Go `strings.ToLower` (ASCII). -/
def strToLower (s : String) : String := String.mk (s.data.map Char.toLower)

/-- ASCII whitespace, as trimmed by Go `strings.TrimSpace` on the ASCII
strings the source handles. -/
def isSpaceChar (c : Char) : Bool :=
  c == ' ' || c == '\t' || c == '\n' || c == '\r'

/-- Go `strings.TrimSpace`. -/
def strTrim (s : String) : String :=
  String.mk (((s.data.dropWhile isSpaceChar).reverse.dropWhile isSpaceChar).reverse)

/-- Go `strings.Join`. -/
def strIntercalate (sep : String) : List String → String
  | [] => ""
  | [x] => x
  | x :: y :: xs => x ++ sep ++ strIntercalate sep (y :: xs)

/-- Go `strings.HasPrefix`. -/
def strStartsWith (s pre : String) : Bool := pre.data.isPrefixOf s.data

/-- Go `strings.TrimPrefix`. -/
def strTrimPrefix (s pre : String) : String :=
  if pre.data.isPrefixOf s.data then String.mk (s.data.drop pre.data.length) else s

/-- Character-count substring `s[n:]` (Go byte slicing on ASCII). -/
def strDropChars (s : String) (n : Nat) : String := String.mk (s.data.drop n)

/-- Character-count substring `s[:n]` (Go byte slicing on ASCII). -/
def strTakeChars (s : String) (n : Nat) : String := String.mk (s.data.take n)

/-- Go `len` on the ASCII strings involved. -/
def strLength (s : String) : Nat := s.data.length

/-- The single-quote character, used by the policy engine when it splices
role and tenant values into predicate text. -/
def singleQuote : String := String.singleton (Char.ofNat 39)

/-- Decidable equality for `Except`, so that concrete runs of the fallible
builders can be checked by `decide`. -/
instance {ε α : Type _} [DecidableEq ε] [DecidableEq α] :
    DecidableEq (Except ε α) := fun a b =>
  match a, b with
  | .error x, .error y =>
    if h : x = y then isTrue (congrArg Except.error h)
    else isFalse (fun he => h (Except.error.inj he))
  | .ok x, .ok y =>
    if h : x = y then isTrue (congrArg Except.ok h)
    else isFalse (fun he => h (Except.ok.inj he))
  | .error _, .ok _ => isFalse (fun he => Except.noConfusion he)
  | .ok _, .error _ => isFalse (fun he => Except.noConfusion he)

/-! ## Filter grammar data model (pkg/engine/errors.go, second unit) -/

/-- `FilterOperator` constants of pkg/engine (Go string constants `"eq"`,
`"neq"`, …, `"and"`, `"or"`). -/
inductive FilterOperator where
  | opEqual | opNotEqual | opGreaterThan | opGreaterEqual
  | opLessThan | opLessEqual | opLike | opILike
  | opIn | opIs | opNot | opAnd | opOr
deriving DecidableEq

/-- `Filter`: one atomic filter. -/
structure Filter where
  column : String
  operator : FilterOperator
  value : String
deriving DecidableEq

/-- `OrderClause`: one sort key. -/
structure OrderClause where
  column : String
  direction : String
  nulls : String
deriving DecidableEq

/-- `LogicalCondition`: an `and=(…)` / `or=(…)` group.  The source declares
nested `Conditions` and a `Negated` flag; the SQL builder reads only `Type`
and `Filters`. -/
inductive LogicalCondition where
  | mk (type : String) (filters : List Filter)
       (conditions : List LogicalCondition) (negated : Bool)

/-- Field `Type` of `LogicalCondition`. -/
def LogicalCondition.type : LogicalCondition → String
  | .mk t _ _ _ => t

/-- Field `Filters` of `LogicalCondition`. -/
def LogicalCondition.filters : LogicalCondition → List Filter
  | .mk _ f _ _ => f

/-- `QueryParameters`: the parsed request consumed by the SQL builder.
Go's `*int` window fields become `Option Int`. -/
structure QueryParameters where
  filters : List Filter
  select : List String
  order : List OrderClause
  limit : Option Int
  offset : Option Int
  table : String
  conditions : List LogicalCondition

/-- The operator strings accepted by `parseFilter` / `parsePostgRESTFilter`
(`validOperators` map in errors.go): logical `and` / `or` and the generic
`not` are rejected here. -/
def operatorOfString (s : String) : Option FilterOperator :=
  if s = "eq" then some .opEqual
  else if s = "neq" then some .opNotEqual
  else if s = "gt" then some .opGreaterThan
  else if s = "gte" then some .opGreaterEqual
  else if s = "lt" then some .opLessThan
  else if s = "lte" then some .opLessEqual
  else if s = "like" then some .opLike
  else if s = "ilike" then some .opILike
  else if s = "in" then some .opIn
  else if s = "is" then some .opIs
  else none

/-- `parsePostgRESTFilter` (errors.go): parses `column=op.value`, e.g.
`name=like.john*`; the value is everything after the first dot, rejoined
on dots. -/
def parsePostgRESTFilter (key value : String) : Except String Filter :=
  let parts := strSplitOn value "."
  if parts.length < 2 then
    .error ("invalid PostgREST filter format: " ++ value)
  else
    match operatorOfString (parts.headD "") with
    | none => .error ("unknown operator: " ++ parts.headD "")
    | some op => .ok ⟨key, op, strIntercalate "." parts.tail⟩

/-! ## SQL builder (pkg/engine/builder.go) -/

/-- `quoteIdentifier`: backtick quoting with backtick doubling. -/
def quoteIdentifier (name : String) : String :=
  "`" ++ strReplaceAll name "`" "``" ++ "`"

/-- `buildFilterCondition`: renders one atomic filter to a SQL fragment and
its bound arguments.  Every branch emits `?` placeholders; the `default`
branch of the Go `switch` (reached for `and` / `or`) falls back to `= ?`. -/
def buildFilterCondition (filter : Filter) : String × List SQLArg :=
  let column := quoteIdentifier filter.column
  match filter.operator with
  | .opEqual => (column ++ " = ?", [.str filter.value])
  | .opNotEqual => (column ++ " != ?", [.str filter.value])
  | .opGreaterThan => (column ++ " > ?", [.str filter.value])
  | .opGreaterEqual => (column ++ " >= ?", [.str filter.value])
  | .opLessThan => (column ++ " < ?", [.str filter.value])
  | .opLessEqual => (column ++ " <= ?", [.str filter.value])
  | .opLike => (column ++ " LIKE ?", [.str filter.value])
  | .opILike => (column ++ " ILIKE ?", [.str filter.value])
  | .opIn =>
    let values := strSplitOn filter.value ","
    let placeholders := values.map (fun _ => "?")
    let args := values.map (fun v => SQLArg.str (strTrim v))
    (column ++ " IN (" ++ strIntercalate ", " placeholders ++ ")", args)
  | .opIs =>
    if strToLower filter.value = "null" then (column ++ " IS NULL", [])
    else (column ++ " IS ?", [.str filter.value])
  | .opNot =>
    if strToLower filter.value = "null" then (column ++ " IS NOT NULL", [])
    else (column ++ " != ?", [.str filter.value])
  | _ => (column ++ " = ?", [.str filter.value])

/-- `buildWhereClauseFromFilters`: `WHERE c1 AND c2 AND …` over a filter
list (empty list yields the empty clause). -/
def buildWhereClauseFromFilters (filters : List Filter) : String × List SQLArg :=
  if filters.isEmpty then ("", [])
  else
    let built := filters.map buildFilterCondition
    ("WHERE " ++ strIntercalate " AND " (built.map Prod.fst),
     (built.map Prod.snd).flatten)

/-- `buildLogicalCondition`: renders an `and`/`or` group; a single
sub-condition is emitted bare, several are parenthesised and joined. -/
def buildLogicalCondition (condition : LogicalCondition) : String × List SQLArg :=
  if condition.filters.isEmpty then ("", [])
  else
    let built := condition.filters.map buildFilterCondition
    let subConditions := built.map Prod.fst
    let args := (built.map Prod.snd).flatten
    let operator := if condition.type = "or" then "OR" else "AND"
    if subConditions.length = 1 then (subConditions.headD "", args)
    else
      ("(" ++ strIntercalate (" " ++ operator ++ " ") subConditions ++ ")", args)

/-- Loop body of `buildWhereClause` over `params.Conditions`: appends the
rendered logical group when its text is non-empty. -/
def whereAccumStep (acc : List String × List SQLArg)
    (condition : LogicalCondition) : List String × List SQLArg :=
  let logical := buildLogicalCondition condition
  if logical.1 ≠ "" then (acc.1 ++ [logical.1], acc.2 ++ logical.2) else acc

/-- Seed of `buildWhereClause`'s accumulator: the simple filters rendered
by `buildWhereClauseFromFilters` with their `WHERE ` prefix stripped. -/
def whereStart (filters : List Filter) : List String × List SQLArg :=
  if filters.length > 0 then
    let simple := buildWhereClauseFromFilters filters
    if simple.1 ≠ "" then ([strTrimPrefix simple.1 "WHERE "], simple.2)
    else ([], [])
  else ([], [])

/-- `buildWhereClause`: combines the simple filters (`whereStart`) with the
logical groups (the loop body is `whereAccumStep`), all joined by `AND`. -/
def buildWhereClause (params : QueryParameters) : String × List SQLArg :=
  let all := params.conditions.foldl whereAccumStep (whereStart params.filters)
  if all.1.isEmpty then ("", [])
  else ("WHERE " ++ strIntercalate " AND " all.1, all.2)

/-- `buildSelectClause`: `*` for an empty projection, else the quoted
column list. -/
def buildSelectClause (selectColumns : List String) : String :=
  if selectColumns.isEmpty then "*"
  else strIntercalate ", " (selectColumns.map quoteIdentifier)

/-- `buildOrderClause`: `ORDER BY c DIR, …`, defaulting invalid directions
to `ASC`. -/
def buildOrderClause (orderClauses : List OrderClause) : String :=
  if orderClauses.isEmpty then ""
  else
    let parts := orderClauses.map (fun order =>
      let direction := strToUpper order.direction
      let direction := if direction ≠ "ASC" ∧ direction ≠ "DESC" then "ASC" else direction
      quoteIdentifier order.column ++ " " ++ direction)
    "ORDER BY " ++ strIntercalate ", " parts

/-- `buildLimitClause`: `LIMIT ?` / `OFFSET ?` with the window values as
bound arguments. -/
def buildLimitClause (limit offset : Option Int) : String × List SQLArg :=
  let acc : List String × List SQLArg :=
    match limit with
    | some l => (["LIMIT ?"], [SQLArg.int l])
    | none => ([], [])
  let acc :=
    match offset with
    | some o => (acc.1 ++ ["OFFSET ?"], acc.2 ++ [SQLArg.int o])
    | none => acc
  (strIntercalate " " acc.1, acc.2)

/-- `BuildSelect`: assembles the full `SELECT` statement (clauses joined by
single spaces, then trimmed and double spaces collapsed) and the argument
vector (where-arguments then window arguments).  The Go function's `error`
result is always `nil`; the `Except` layer records that. -/
def BuildSelect (params : QueryParameters) : Except String (String × List SQLArg) :=
  let selectClause := buildSelectClause params.select
  let fromClause := "FROM " ++ quoteIdentifier params.table
  let whereClause := buildWhereClause params
  let orderClause := buildOrderClause params.order
  let limitClause := buildLimitClause params.limit params.offset
  let query := "SELECT " ++ selectClause ++ " " ++ fromClause ++ " "
      ++ whereClause.1 ++ " " ++ orderClause ++ " " ++ limitClause.1
  .ok (strReplaceAll (strTrim query) "  " " ", whereClause.2 ++ limitClause.2)

/-- `BuildInsert`: `INSERT INTO t (cols) VALUES (?, …)`; Go's body map is
modelled as an association list (map iteration order made explicit).  Fails
only on an empty body. -/
def BuildInsert (table : String) (data : List (String × SQLArg)) :
    Except String (String × List SQLArg) :=
  if data.isEmpty then .error "no data provided for insert"
  else
    .ok ("INSERT INTO " ++ quoteIdentifier table ++ " ("
        ++ strIntercalate ", " (data.map (fun p => quoteIdentifier p.1))
        ++ ") VALUES ("
        ++ strIntercalate ", " (data.map (fun _ => "?")) ++ ")",
      data.map Prod.snd)

/-- `BuildUpdate`: `UPDATE t SET c = ?, … <where>`; the where clause comes
from `buildWhereClauseFromFilters` and is empty for an empty filter list.
Fails only on an empty body. -/
def BuildUpdate (table : String) (data : List (String × SQLArg))
    (filters : List Filter) : Except String (String × List SQLArg) :=
  if data.isEmpty then .error "no data provided for update"
  else
    let whereClause := buildWhereClauseFromFilters filters
    .ok ("UPDATE " ++ quoteIdentifier table ++ " SET "
        ++ strIntercalate ", " (data.map (fun p => quoteIdentifier p.1 ++ " = ?"))
        ++ " " ++ whereClause.1,
      data.map Prod.snd ++ whereClause.2)

/-- `BuildDelete`: `DELETE FROM t <where>`; never fails. -/
def BuildDelete (table : String) (filters : List Filter) :
    Except String (String × List SQLArg) :=
  let whereClause := buildWhereClauseFromFilters filters
  .ok ("DELETE FROM " ++ quoteIdentifier table ++ " " ++ whereClause.1,
    whereClause.2)

/-! ## Resource embedding (pkg/engine/embedding.go) -/

/-- `ForeignKeyInfo`: one foreign-key edge as introspected by
`PRAGMA foreign_key_list`. -/
structure ForeignKeyInfo where
  name : String
  primaryTable : String
  primaryColumn : String
  foreignColumn : String
deriving DecidableEq

/-- `EmbeddedRelation`: one requested embed parsed from `select`. -/
structure EmbeddedRelation where
  name : String
  table : String
  column : String
  aliasName : String
  required : Bool
deriving DecidableEq

/-- Lookup in the `map[string]ForeignKeyInfo` produced by
`GetForeignKeys` (keyed by the local `from` column). -/
def fkLookup (foreignKeys : List (String × ForeignKeyInfo)) (key : String) :
    Option ForeignKeyInfo :=
  match foreignKeys.find? (fun p => p.1 == key) with
  | some p => some p.2
  | none => none

/-- Loop body of `BuildEmbeddedQuery` over the requested relations: a
relation with no matching foreign-key edge is skipped (the `continue` at
embedding.go line 96, commented "ignorer les relations qui ne sont pas des
foreign keys directs"); a matching edge contributes a `LEFT JOIN` clause
and a projection column. -/
def embedAccumStep (foreignKeys : List (String × ForeignKeyInfo))
    (baseTable : String) (acc : List String × List String)
    (relation : EmbeddedRelation) : List String × List String :=
  match fkLookup foreignKeys relation.name with
  | none => acc
  | some fkInfo =>
    (acc.1 ++ ["LEFT JOIN " ++ fkInfo.primaryTable ++ " ON " ++ baseTable
        ++ "." ++ fkInfo.foreignColumn ++ " = " ++ fkInfo.primaryTable
        ++ "." ++ fkInfo.primaryColumn],
     acc.2 ++ [fkInfo.primaryTable ++ ".*" ++ " as " ++ relation.name])

/-- `BuildEmbeddedQuery` (embedding.go lines 74–143): rewrites the base
query with `LEFT JOIN`s for each requested relation that has a matching
foreign-key edge.  A relation with no matching edge is skipped by the
`continue` at line 96.  The foreign keys (fetched from the database by
`GetForeignKeys`) are passed explicitly; the Go `error` result arises only
from that database call, so this model never errors. -/
def BuildEmbeddedQuery (foreignKeys : List (String × ForeignKeyInfo))
    (baseQuery : String) (relations : List EmbeddedRelation)
    (baseTable : String) : Except String String :=
  if relations.isEmpty then .ok baseQuery
  else
    let folded := relations.foldl (embedAccumStep foreignKeys baseTable)
        ([], [baseTable ++ ".*"])
    let joinClauses := folded.1
    let selectColumns := folded.2
    if strContains (strToUpper baseQuery) "SELECT" then
      let newQuery := strReplaceFirst baseQuery "SELECT *"
          ("SELECT " ++ strIntercalate ", " selectColumns)
      match strIndexOf (strToUpper newQuery) " FROM " with
      | none => .ok newQuery
      | some fromIndex =>
        let afterFrom := strDropChars newQuery fromIndex
        let clauses := [" WHERE ", " ORDER BY ", " GROUP BY ", " HAVING ",
            " LIMIT ", " OFFSET "]
        let insertPos := clauses.foldl (fun pos clause =>
            match strIndexOf (strToUpper afterFrom) clause with
            | some p => if p < pos then p else pos
            | none => pos) (strLength afterFrom)
        if insertPos = strLength afterFrom then
          .ok (newQuery ++ " " ++ strIntercalate " " joinClauses)
        else
          .ok (strTakeChars newQuery fromIndex ++ strTakeChars afterFrom insertPos
            ++ " " ++ strIntercalate " " joinClauses
            ++ strDropChars afterFrom insertPos)
    else .ok baseQuery

/-! ## Authentication (pkg/auth, src/sqlitrest/magefile.go second unit) -/

/-- `Claims`: the JWT claims the source maps into the principal. -/
structure Claims where
  userID : String
  role : String
  tenantID : String
  permissions : List String
deriving DecidableEq

/-- `JWTConfig`. -/
structure JWTConfig where
  enabled : Bool
  algorithm : String
  secret : String
  issuer : String
  audience : List String
deriving DecidableEq

/-- `AuthContext`: the principal attached to a request.  The Go zero value
has `Authenticated=false` and empty strings everywhere. -/
structure AuthContext where
  authenticated : Bool
  userID : String
  role : String
  tenantID : String
  permissions : List String
  token : String
deriving DecidableEq

/-- The Go zero-value `&AuthContext{Authenticated: false}`. -/
def emptyAuthContext : AuthContext :=
  ⟨false, "", "", "", [], ""⟩

/-- The request fields `ExtractTokenFromRequest` reads; an absent header,
query parameter or cookie is the empty string. -/
structure Request where
  authorizationHeader : String
  tokenQueryParam : String
  jwtCookie : String
deriving DecidableEq

/-- `ExtractTokenFromRequest`: `Authorization` header first, then the
`?token=` query parameter, then the `jwt_token` cookie, each re-prefixed
with `Bearer `. -/
def ExtractTokenFromRequest (req : Request) : String :=
  if req.authorizationHeader ≠ "" then req.authorizationHeader
  else if req.tokenQueryParam ≠ "" then "Bearer " ++ req.tokenQueryParam
  else if req.jwtCookie ≠ "" then "Bearer " ++ req.jwtCookie
  else ""

/-- `ValidateToken`: when JWT is disabled, returns empty claims without
looking at the token; otherwise strips a `Bearer ` prefix and parses.  The
signature verification performed by the external `golang-jwt` library is
modelled by the oracle `parse` (its error covers bad signature, expiry,
wrong algorithm and malformed claims). -/
def ValidateToken (config : JWTConfig) (parse : String → Except String Claims)
    (tokenString : String) : Except String Claims :=
  if !config.enabled then .ok ⟨"", "", "", []⟩
  else
    let tokenString :=
      if strStartsWith tokenString "Bearer " then strDropChars tokenString 7
      else tokenString
    match parse tokenString with
    | .error e => .error ("invalid token: " ++ e)
    | .ok claims => .ok claims

/-- `AuthenticateRequest`: the verify step.  Returns the principal and
`some error` on failure (Go's `(ctx, err)` pair). -/
def AuthenticateRequest (config : JWTConfig)
    (parse : String → Except String Claims) (req : Request) :
    AuthContext × Option String :=
  if !config.enabled then (emptyAuthContext, none)
  else
    let tokenString := ExtractTokenFromRequest req
    if tokenString = "" then (emptyAuthContext, none)
    else
      match ValidateToken config parse tokenString with
      | .error e => (emptyAuthContext, some e)
      | .ok claims =>
        (⟨true, claims.userID, claims.role, claims.tenantID,
          claims.permissions, tokenString⟩, none)

/-! ## Policy engine (pkg/policies, src/unnamed/part_015) -/

/-- `Policy`: one row-level-security rule. -/
structure Policy where
  name : String
  table : String
  action : String
  expression : String
  description : String
deriving DecidableEq

/-- `getPoliciesForTable`: the engine's `table → policies` map restricted
to one table, filtered to the requested action or `ALL`. -/
def getPoliciesForTable (policies : List Policy) (table action : String) :
    List Policy :=
  (policies.filter (fun p => p.table == table)).filter
    (fun p => p.action == action || p.action == "ALL")

/-- `determineActionFromQuery`: classifies the SQL verb by prefix of the
upper-cased, trimmed statement. -/
def determineActionFromQuery (query : String) : String :=
  let query := strTrim (strToUpper query)
  if strStartsWith query "SELECT" then "SELECT"
  else if strStartsWith query "INSERT" then "INSERT"
  else if strStartsWith query "UPDATE" then "UPDATE"
  else if strStartsWith query "DELETE" then "DELETE"
  else "UNKNOWN"

/-- `evaluatePolicyExpression` (part_015 lines 145–179): an admin principal
short-circuits to the tautology `1=1`; otherwise the three principal
functions are substituted INTO THE EXPRESSION TEXT by `strings.ReplaceAll`
(`current_user_id()` by the raw user id or `NULL`, `current_role()` and
`current_tenant_id()` by single-quoted values or `NULL`).  The returned
argument list is always empty: nothing is ever bound as a parameter. -/
def evaluatePolicyExpression (expression : String) (authCtx : AuthContext) :
    String × List SQLArg :=
  if authCtx.authenticated ∧ authCtx.role = "admin" then ("1=1", [])
  else
    let e1 :=
      if strContains expression "current_user_id()" then
        if authCtx.authenticated then
          strReplaceAll expression "current_user_id()" authCtx.userID
        else strReplaceAll expression "current_user_id()" "NULL"
      else expression
    let e2 :=
      if strContains e1 "current_role()" then
        if authCtx.authenticated then
          strReplaceAll e1 "current_role()"
            (singleQuote ++ authCtx.role ++ singleQuote)
        else strReplaceAll e1 "current_role()"
            (singleQuote ++ "anonymous" ++ singleQuote)
      else e1
    let e3 :=
      if strContains e2 "current_tenant_id()" then
        if authCtx.authenticated ∧ authCtx.tenantID ≠ "" then
          strReplaceAll e2 "current_tenant_id()"
            (singleQuote ++ authCtx.tenantID ++ singleQuote)
        else strReplaceAll e2 "current_tenant_id()" "NULL"
      else e2
    (e3, [])

/-- `insertWhereAfterFrom`: inserts `WHERE cond` after the `FROM` clause,
before any trailing `WHERE` / `ORDER BY` / `GROUP BY` / `HAVING` / `LIMIT`
/ `OFFSET`. -/
def insertWhereAfterFrom (query condition : String) : String :=
  match strIndexOf (strToUpper query) " FROM " with
  | none => query
  | some fromIndex =>
    let afterFrom := strDropChars query (fromIndex + 6)
    let clauses := [" WHERE ", " ORDER BY ", " GROUP BY ", " HAVING ",
        " LIMIT ", " OFFSET "]
    let insertPos := clauses.foldl (fun pos clause =>
        match strIndexOf (strToUpper afterFrom) clause with
        | some p => if p < pos then p else pos
        | none => pos) (strLength afterFrom)
    if insertPos = strLength afterFrom then query ++ " WHERE " ++ condition
    else
      strTakeChars query (fromIndex + 6) ++ strTakeChars afterFrom insertPos
        ++ " WHERE " ++ condition ++ strDropChars afterFrom insertPos

/-- `injectSecurityConditions` (part_015 lines 182–209): for a SELECT,
UPDATE or DELETE statement that already contains ` WHERE `, appends
` AND (cond)` at the END of the statement text; otherwise adds a `WHERE`
(inserted before trailing clauses for SELECT, appended for UPDATE/DELETE).
INSERT statements pass through. -/
def injectSecurityConditions (query securityCondition : String)
    (securityArgs : List SQLArg) : String × List SQLArg :=
  if strStartsWith (strToUpper query) "SELECT" then
    if strContains (strToUpper query) " WHERE " then
      (query ++ " AND (" ++ securityCondition ++ ")", securityArgs)
    else (insertWhereAfterFrom query securityCondition, securityArgs)
  else if strStartsWith (strToUpper query) "UPDATE"
      ∨ strStartsWith (strToUpper query) "DELETE" then
    if strContains (strToUpper query) " WHERE " then
      (query ++ " AND (" ++ securityCondition ++ ")", securityArgs)
    else (query ++ " WHERE " ++ securityCondition, securityArgs)
  else (query, securityArgs)

/-- Loop body of `ApplyPolicies` over the applicable policies: appends the
evaluated condition text (when non-empty) and its arguments. -/
def policyAccumStep (authCtx : AuthContext)
    (acc : List String × List SQLArg) (policy : Policy) :
    List String × List SQLArg :=
  let evaluated := evaluatePolicyExpression policy.expression authCtx
  if evaluated.1 ≠ "" then (acc.1 ++ [evaluated.1], acc.2 ++ evaluated.2)
  else acc

/-- `ApplyPolicies` (part_015 lines 76–108): collects the enabled policies
for the statement's table and action, evaluates each expression, joins the
non-empty conditions with ` OR ` and injects the result.  Of the
`QueryParameters` only `Table` is read.  The Go `error` result is always
`nil` because `evaluatePolicyExpression` never fails. -/
def ApplyPolicies (policies : List Policy) (query : String)
    (params : QueryParameters) (authCtx : AuthContext) :
    String × List SQLArg :=
  let action := determineActionFromQuery query
  let tablePolicies := getPoliciesForTable policies params.table action
  if tablePolicies.isEmpty then (query, [])
  else
    let folded := tablePolicies.foldl (policyAccumStep authCtx) ([], [])
    if folded.1.isEmpty then (query, [])
    else injectSecurityConditions query (strIntercalate " OR " folded.1) folded.2

/-! ## Schema cache data (pkg/engine/builder.go, second unit) -/

/-- `ColumnInfo`: one introspected column. -/
structure ColumnInfo where
  name : String
  type : String
  notNull : Bool
  defaultValue : String
  isPrimaryKey : Bool
deriving DecidableEq

/-- `SchemaInfo` restricted to the fields the claims read (the cache's
foreign keys are modelled separately as `List (String × ForeignKeyInfo)`
and the `LastUpdated` TTL timestamp is wall-clock state). -/
structure SchemaInfo where
  tableName : String
  columns : List ColumnInfo
deriving DecidableEq

/-- The `users(id INTEGER PK, name TEXT, age INTEGER)` table of the
specification's end-to-end scenarios (§8). -/
def usersSchema : SchemaInfo :=
  ⟨"users",
   [⟨"id", "INTEGER", false, "", true⟩,
    ⟨"name", "TEXT", false, "", false⟩,
    ⟨"age", "INTEGER", false, "", false⟩]⟩

/-! ## Shape functions and spec-side definitions used by the theorems -/

/-- The shape of a filter: everything `buildFilterCondition` may let flow
into the SQL TEXT — column, operator, the arity of an `in` list and whether
the value is the `null` sentinel.  The value's content is excluded. -/
def filterShape (f : Filter) : String × FilterOperator × Nat × Bool :=
  (f.column, f.operator, (strSplitOn f.value ",").length,
   strToLower f.value == "null")

/-- The shape of a logical group: its connective and its filters' shapes. -/
def condShape (c : LogicalCondition) :
    String × List (String × FilterOperator × Nat × Bool) :=
  (c.type, c.filters.map filterShape)

/-- The shape of a parsed request: everything except the filter values and
the window numbers. -/
def paramsShape (p : QueryParameters) :
    String × List String × List OrderClause
      × List (String × FilterOperator × Nat × Bool)
      × List (String × List (String × FilterOperator × Nat × Bool))
      × Bool × Bool :=
  (p.table, p.select, p.order, p.filters.map filterShape,
   p.conditions.map condShape, p.limit.isSome, p.offset.isSome)

/-- Modelled from the spec (§4.7 step 5: "conjoin `P` with the existing
`WHERE` of the plan (wrapping with parentheses)"): the parenthesised
predicate is ANDed into the WHERE clause itself, i.e. inserted before any
trailing ORDER BY / GROUP BY / HAVING / LIMIT / OFFSET clause.  Used only
to compare the source's `injectSecurityConditions` against the claim's
words. -/
def specConjoinWithWhere (query condition : String) : String :=
  match strIndexOf (strToUpper query) " WHERE " with
  | none => query
  | some whereIndex =>
    let afterWhere := strDropChars query (whereIndex + 7)
    let clauses := [" ORDER BY ", " GROUP BY ", " HAVING ",
        " LIMIT ", " OFFSET "]
    let insertPos := clauses.foldl (fun pos clause =>
        match strIndexOf (strToUpper afterWhere) clause with
        | some p => if p < pos then p else pos
        | none => pos) (strLength afterWhere)
    strTakeChars query (whereIndex + 7) ++ strTakeChars afterWhere insertPos
      ++ " AND (" ++ condition ++ ")" ++ strDropChars afterWhere insertPos

/-! ## Helper lemmas -/

/-- Appending the empty string is the identity. -/
theorem str_append_empty (s : String) : s ++ "" = s := by
  cases s with
  | mk d => show String.mk (d ++ []) = String.mk d; rw [List.append_nil]

/-! ## Claim C10: token content is irrelevant when JWT auth is disabled -/

/-- C10: with JWT authentication disabled, authenticating any two requests
— whatever bearer tokens they carry and whatever the JWT library would say
about them — yields the same result: the unauthenticated zero principal and
no error. -/
theorem c10_auth_disabled_token_noninterference
    (config : JWTConfig) (p1 p2 : String → Except String Claims)
    (r1 r2 : Request) (h : config.enabled = false) :
    AuthenticateRequest config p1 r1 = AuthenticateRequest config p2 r2
    ∧ AuthenticateRequest config p1 r1 = (emptyAuthContext, none)
    ∧ (AuthenticateRequest config p1 r1).1.authenticated = false := by
  refine ⟨?_, ?_, ?_⟩ <;> simp [AuthenticateRequest, h, emptyAuthContext]

/-- Witness for C10 at a concrete disabled configuration: a request with a
garbage bearer token and a parse oracle that rejects it authenticates
exactly like a token-free request under an accepting oracle. -/
theorem c10_auth_disabled_token_noninterference_witness :
    (⟨false, "HS256", "secret", "iss", []⟩ : JWTConfig).enabled = false
    ∧ AuthenticateRequest ⟨false, "HS256", "secret", "iss", []⟩
        (fun _ => .error "bad signature") ⟨"Bearer garbage.token.sig", "", ""⟩
      = AuthenticateRequest ⟨false, "HS256", "secret", "iss", []⟩
        (fun _ => .ok ⟨"1", "admin", "", []⟩) ⟨"", "", ""⟩ :=
  ⟨rfl,
   (c10_auth_disabled_token_noninterference _ _ _ _ _ rfl).1⟩

/-! ## Claim C7: verify on missing and on invalid tokens -/

/-- Counterexample for C7 as stated: with JWT enabled and no token present,
`AuthenticateRequest` returns the zero principal whose role is the EMPTY
string, not the claimed `"anonymous"` sentinel (no error is returned). -/
theorem c7_counterexample_role_not_anonymous :
    (AuthenticateRequest ⟨true, "HS256", "secret", "", []⟩
        (fun _ => .error "bad") ⟨"", "", ""⟩).1.role = ""
    ∧ (AuthenticateRequest ⟨true, "HS256", "secret", "", []⟩
        (fun _ => .error "bad") ⟨"", "", ""⟩).1.role ≠ "anonymous"
    ∧ (AuthenticateRequest ⟨true, "HS256", "secret", "", []⟩
        (fun _ => .error "bad") ⟨"", "", ""⟩).2 = none := by
  refine ⟨?_, ?_, ?_⟩ <;> decide

/-- C7 amended: verification never fails silently, but the principal for a
missing token is the zero `AuthContext` (authenticated=false, role="" —
the `"anonymous"` sentinel appears only inside policy substitution, not in
the principal); a present but invalid token yields the validation error. -/
theorem c7_missing_token_anonymous_invalid_token_error
    (config : JWTConfig) (parse : String → Except String Claims)
    (req : Request) (h : config.enabled = true) :
    (ExtractTokenFromRequest req = "" →
      AuthenticateRequest config parse req = (emptyAuthContext, none))
    ∧ (∀ e, ExtractTokenFromRequest req ≠ "" →
        ValidateToken config parse (ExtractTokenFromRequest req) = .error e →
        AuthenticateRequest config parse req = (emptyAuthContext, some e)) := by
  constructor
  · intro ht
    simp [AuthenticateRequest, h, ht]
  · intro e ht hv
    simp [AuthenticateRequest, h, ht, hv]

/-- Witness for C7 (amended) at a concrete enabled configuration: a request
with no token yields the zero principal and no error; a request with a
rejected bearer token yields the wrapped validation error. -/
theorem c7_missing_token_anonymous_invalid_token_error_witness :
    (⟨true, "HS256", "secret", "", []⟩ : JWTConfig).enabled = true
    ∧ AuthenticateRequest ⟨true, "HS256", "secret", "", []⟩
        (fun _ => .error "bad signature") ⟨"", "", ""⟩
      = (emptyAuthContext, none)
    ∧ AuthenticateRequest ⟨true, "HS256", "secret", "", []⟩
        (fun _ => .error "bad signature") ⟨"Bearer zzz", "", ""⟩
      = (emptyAuthContext, some "invalid token: bad signature") :=
  ⟨rfl,
   (c7_missing_token_anonymous_invalid_token_error _ _ _ rfl).1 (by decide),
   (c7_missing_token_anonymous_invalid_token_error _ _ _ rfl).2
     "invalid token: bad signature" (by decide) (by decide)⟩

/-! ## Claim C2: policy expressions and principal values -/

/-- C2 (the code violates the claim): `evaluatePolicyExpression` does not
parse the expression to a tree; it splices the principal's user id RAW into
the predicate text by string replacement and binds nothing — the returned
parameter list is empty and the attribute value `42` appears in the SQL
text. -/
theorem c2_policy_substitutes_principal_into_sql_text :
    evaluatePolicyExpression "id = current_user_id()"
        ⟨true, "42", "user", "", [], ""⟩
      = ("id = 42", [])
    ∧ strContains "id = 42" "42" = true
    ∧ (evaluatePolicyExpression "id = current_user_id()"
        ⟨true, "42", "user", "", [], ""⟩).2 = [] := by
  refine ⟨?_, ?_, ?_⟩ <;> decide

/-! ## Claim C6: the like / ilike wildcard -/

/-- C6 (the code violates the claim): `name=like.john*` parses to the
filter `(name, like, "john*")` and is emitted as `` `name` LIKE ? `` with
the UNTRANSLATED pattern `john*` bound — no `*` becomes `%`, so the
statement matches only names containing a literal asterisk, not the prefix
`john`; `ilike` is emitted the same way with `ILIKE`. -/
theorem c6_like_wildcard_untranslated :
    parsePostgRESTFilter "name" "like.john*"
      = .ok ⟨"name", .opLike, "john*"⟩
    ∧ buildFilterCondition ⟨"name", .opLike, "john*"⟩
      = ("`name` LIKE ?", [SQLArg.str "john*"])
    ∧ strContains "john*" "%" = false
    ∧ buildFilterCondition ⟨"name", .opILike, "john*"⟩
      = ("`name` ILIKE ?", [SQLArg.str "john*"]) := by
  refine ⟨?_, ?_, ?_, ?_⟩ <;> decide

/-! ## Claim C3: column validation against the schema -/

/-- Counterexample for C3 as stated: a request projecting the column
`nope`, absent from the users schema, does NOT fail — `BuildSelect`
succeeds and the emitted statement references the unknown identifier. -/
theorem c3_counterexample_unknown_column_emitted :
    (usersSchema.columns.map ColumnInfo.name).contains "nope" = false
    ∧ BuildSelect ⟨[], ["nope"], [], none, none, "users", []⟩
      = .ok ("SELECT `nope` FROM `users`", [])
    ∧ strContains "SELECT `nope` FROM `users`" "`nope`" = true := by
  refine ⟨?_, ?_, ?_⟩ <;> decide

/-- C3 amended: no schema validation happens before emission —
`BuildSelect` never returns an error, and the projection clause is exactly
the request's columns backtick-quoted, whether or not they exist in the
table's schema. -/
theorem c3_no_schema_validation_before_emission :
    (∀ p : QueryParameters, (BuildSelect p).isOk = true)
    ∧ (∀ cols : List String, cols ≠ [] →
        buildSelectClause cols = strIntercalate ", " (cols.map quoteIdentifier)) := by
  constructor
  · intro p; rfl
  · intro cols h
    cases cols with
    | nil => exact absurd rfl h
    | cons c cs => rfl

/-- Witness for C3 (amended) at the unknown column `nope` of the users
schema. -/
theorem c3_no_schema_validation_before_emission_witness :
    (["nope"] : List String) ≠ []
    ∧ buildSelectClause ["nope"] = strIntercalate ", " (["nope"].map quoteIdentifier)
    ∧ (BuildSelect ⟨[], ["nope"], [], none, none, "users", []⟩).isOk = true :=
  ⟨by decide,
   c3_no_schema_validation_before_emission.2 ["nope"] (by decide),
   c3_no_schema_validation_before_emission.1 _⟩

/-! ## Claim C4: WHERE required for UPDATE and DELETE -/

/-- Counterexample for C4 as stated: an UPDATE with an empty filter set
does NOT fail with a validation error — `BuildUpdate` succeeds and emits a
statement without any WHERE clause; likewise `BuildDelete`. -/
theorem c4_counterexample_no_missing_where_error :
    BuildUpdate "users" [("name", SQLArg.str "x")] []
      = .ok ("UPDATE `users` SET `name` = ? ", [SQLArg.str "x"])
    ∧ strContains "UPDATE `users` SET `name` = ? " "WHERE" = false
    ∧ BuildDelete "users" [] = .ok ("DELETE FROM `users` ", [])
    ∧ strContains "DELETE FROM `users` " "WHERE" = false := by
  refine ⟨?_, ?_, ?_, ?_⟩ <;> decide

/-- C4 amended: with an empty filter list, `BuildUpdate` (for any non-empty
body) and `BuildDelete` succeed and emit their statements with the empty
where clause — no `missing_where` validation exists anywhere on the
UPDATE/DELETE paths. -/
theorem c4_update_delete_without_where_succeed
    (tb : String) (d : List (String × SQLArg)) (h : d ≠ []) :
    BuildUpdate tb d []
      = .ok ("UPDATE " ++ quoteIdentifier tb ++ " SET "
          ++ strIntercalate ", "
              (d.map (fun p => quoteIdentifier p.1 ++ " = ?")) ++ " ",
        d.map Prod.snd)
    ∧ BuildDelete tb []
      = .ok ("DELETE FROM " ++ quoteIdentifier tb ++ " ", []) := by
  constructor
  · cases d with
    | nil => exact absurd rfl h
    | cons x xs =>
      simp only [BuildUpdate, List.isEmpty_cons, Bool.false_eq_true,
        if_false, ite_false]
      rw [show (buildWhereClauseFromFilters []).1 = "" from rfl,
        show (buildWhereClauseFromFilters []).2 = [] from rfl,
        str_append_empty, List.append_nil]
  · simp only [BuildDelete]
    rw [show (buildWhereClauseFromFilters []).1 = "" from rfl,
      show (buildWhereClauseFromFilters []).2 = [] from rfl,
      str_append_empty]

/-- Witness for C4 (amended) at a one-column body. -/
theorem c4_update_delete_without_where_succeed_witness :
    ([("name", SQLArg.str "x")] : List (String × SQLArg)) ≠ []
    ∧ BuildUpdate "users" [("name", SQLArg.str "x")] []
      = .ok ("UPDATE " ++ quoteIdentifier "users" ++ " SET "
          ++ strIntercalate ", "
              ([("name", SQLArg.str "x")].map
                (fun p => quoteIdentifier p.1 ++ " = ?")) ++ " ",
        [("name", SQLArg.str "x")].map Prod.snd) :=
  ⟨by decide,
   (c4_update_delete_without_where_succeed "users" [("name", SQLArg.str "x")]
     (by decide)).1⟩

/-! ## Claim C5: unknown embedded relations -/

/-- Counterexample for C5 as stated: requesting the embed `posts` on a base
table with NO matching foreign-key edge does not produce a validation
error — `BuildEmbeddedQuery` succeeds, silently drops the relation (no
JOIN, no mention of `posts`) and rewrites the projection to the base
table's columns. -/
theorem c5_counterexample_unknown_relation_ignored :
    BuildEmbeddedQuery [] "SELECT * FROM users"
        [⟨"posts", "", "", "posts", false⟩] "users"
      = .ok "SELECT users.* FROM users "
    ∧ strContains "SELECT users.* FROM users " "posts" = false
    ∧ strContains "SELECT users.* FROM users " "JOIN" = false := by
  refine ⟨?_, ?_, ?_⟩ <;> decide

/-- C5 amended: `BuildEmbeddedQuery` never returns an error once the
foreign keys are introspected, and a requested relation whose name matches
no foreign-key edge contributes nothing: the join-building fold skips every
such relation. -/
theorem c5_unknown_relation_silently_skipped :
    (∀ (fks : List (String × ForeignKeyInfo)) (q : String)
        (rels : List EmbeddedRelation) (t : String),
      (BuildEmbeddedQuery fks q rels t).isOk = true)
    ∧ (∀ (fks : List (String × ForeignKeyInfo)) (t : String)
        (rels : List EmbeddedRelation),
      (∀ r ∈ rels, fkLookup fks r.name = none) →
      ∀ acc : List String × List String,
        rels.foldl (embedAccumStep fks t) acc = acc) := by
  constructor
  · intro fks q rels t
    simp only [BuildEmbeddedQuery]
    split
    · rfl
    · split
      · split
        · rfl
        · split <;> rfl
      · rfl
  · intro fks t rels h
    induction rels with
    | nil => intro acc; rfl
    | cons r rs ih =>
      intro acc
      simp only [List.foldl_cons]
      rw [show embedAccumStep fks t acc r = acc from by
        simp [embedAccumStep, h r (List.mem_cons_self r rs)]]
      exact ih (fun x hx => h x (List.mem_cons_of_mem r hx)) acc

/-- Witness for C5 (amended): the fold over the single unmatched relation
`posts` leaves the accumulator untouched. -/
theorem c5_unknown_relation_silently_skipped_witness :
    (∀ r ∈ ([⟨"posts", "", "", "posts", false⟩] : List EmbeddedRelation),
      fkLookup [] r.name = none)
    ∧ ([⟨"posts", "", "", "posts", false⟩] : List EmbeddedRelation).foldl
        (embedAccumStep [] "users") ([], ["users.*"])
      = ([], ["users.*"]) :=
  ⟨by decide,
   c5_unknown_relation_silently_skipped.2 [] "users"
     [⟨"posts", "", "", "posts", false⟩] (by decide) ([], ["users.*"])⟩

/-! ## Shape lemmas (for C1): the emitted SQL text depends only on the
request's shape, never on the content of the values -/

/-- The SQL text of an atomic filter depends only on its shape: two filters
with the same column, operator, `in`-arity and null-sentinel flag render to
the same text whatever their values. -/
theorem buildFilterCondition_fst_shape {f g : Filter}
    (h : filterShape f = filterShape g) :
    (buildFilterCondition f).1 = (buildFilterCondition g).1 := by
  obtain ⟨c, op, v⟩ := f
  obtain ⟨c2, op2, v2⟩ := g
  simp only [filterShape, Prod.mk.injEq] at h
  obtain ⟨h1, h2, h3, h4⟩ := h
  subst h1; subst h2
  have h4' : (strToLower v = "null") ↔ (strToLower v2 = "null") := by
    constructor <;> intro hh
    · exact beq_iff_eq.mp (h4 ▸ beq_iff_eq.mpr hh)
    · exact beq_iff_eq.mp (h4.symm ▸ beq_iff_eq.mpr hh)
  cases op
  case opIn =>
    simp only [buildFilterCondition]
    have hq : (strSplitOn v ",").map (fun _ => ("?" : String))
        = (strSplitOn v2 ",").map (fun _ => "?") := by
      rw [List.map_const', List.map_const', h3]
    rw [hq]
  case opIs =>
    simp only [buildFilterCondition]
    by_cases hv : strToLower v = "null"
    · simp [hv, h4'.mp hv]
    · have hv2 : ¬(strToLower v2 = "null") := fun hh => hv (h4'.mpr hh)
      simp [hv, hv2]
  case opNot =>
    simp only [buildFilterCondition]
    by_cases hv : strToLower v = "null"
    · simp [hv, h4'.mp hv]
    · have hv2 : ¬(strToLower v2 = "null") := fun hh => hv (h4'.mpr hh)
      simp [hv, hv2]
  all_goals rfl

/-- Pointwise lift of `buildFilterCondition_fst_shape` to filter lists. -/
theorem map_buildFilterCondition_fst {l1 l2 : List Filter}
    (h : l1.map filterShape = l2.map filterShape) :
    (l1.map buildFilterCondition).map Prod.fst
      = (l2.map buildFilterCondition).map Prod.fst := by
  induction l1 generalizing l2 with
  | nil =>
    cases l2 with
    | nil => rfl
    | cons b bs => simp at h
  | cons a as ih =>
    cases l2 with
    | nil => simp at h
    | cons b bs =>
      simp only [List.map_cons, List.cons.injEq] at h ⊢
      exact ⟨buildFilterCondition_fst_shape h.1, ih h.2⟩

/-- The simple-filters WHERE text depends only on the filters' shapes. -/
theorem buildWhereClauseFromFilters_fst_shape {l1 l2 : List Filter}
    (h : l1.map filterShape = l2.map filterShape) :
    (buildWhereClauseFromFilters l1).1 = (buildWhereClauseFromFilters l2).1 := by
  have hemp : l1.isEmpty = l2.isEmpty := by
    cases l1 <;> cases l2 <;> simp_all
  simp only [buildWhereClauseFromFilters]
  by_cases he : l1.isEmpty = true
  · have he2 : l2.isEmpty = true := hemp ▸ he
    simp [he, he2]
  · have he2 : ¬(l2.isEmpty = true) := by rw [← hemp]; exact he
    simp only [he, he2, if_false]
    rw [map_buildFilterCondition_fst h]
    simp

/-- The text of a logical group depends only on its shape. -/
theorem buildLogicalCondition_fst_shape {c d : LogicalCondition}
    (h : condShape c = condShape d) :
    (buildLogicalCondition c).1 = (buildLogicalCondition d).1 := by
  obtain ⟨t, fs, cs, n⟩ := c
  obtain ⟨t2, fs2, cs2, n2⟩ := d
  simp only [condShape, LogicalCondition.type, LogicalCondition.filters,
    Prod.mk.injEq] at h
  obtain ⟨h1, h2⟩ := h
  subst h1
  have hemp : fs.isEmpty = fs2.isEmpty := by
    cases fs <;> cases fs2 <;> simp_all
  have hsc := map_buildFilterCondition_fst h2
  simp only [buildLogicalCondition, LogicalCondition.type,
    LogicalCondition.filters]
  by_cases he : fs.isEmpty = true
  · have he2 : fs2.isEmpty = true := hemp ▸ he
    simp [he, he2]
  · have he2 : ¬(fs2.isEmpty = true) := by rw [← hemp]; exact he
    simp only [he, he2, if_false]
    rw [hsc]
    split_ifs <;> rfl

/-- The conditions fold of `buildWhereClause`, projected to its text
component, is a text-only fold. -/
theorem whereFold_fst (conds : List LogicalCondition) :
    ∀ acc : List String × List SQLArg,
    (conds.foldl whereAccumStep acc).1
      = conds.foldl (fun a c =>
          if (buildLogicalCondition c).1 ≠ "" then a ++ [(buildLogicalCondition c).1]
          else a) acc.1 := by
  induction conds with
  | nil => intro acc; rfl
  | cons c cs ih =>
    intro acc
    simp only [List.foldl_cons]
    have hstep : (whereAccumStep acc c).1
        = (if (buildLogicalCondition c).1 ≠ ""
            then acc.1 ++ [(buildLogicalCondition c).1] else acc.1) := by
      simp only [whereAccumStep]
      by_cases hc : (buildLogicalCondition c).1 ≠ "" <;> simp [hc]
    rw [ih, hstep]

/-- The text-only fold over logical groups depends only on their shapes. -/
theorem textFold_congr {l1 l2 : List LogicalCondition}
    (h : l1.map condShape = l2.map condShape) :
    ∀ a : List String,
    l1.foldl (fun a c =>
        if (buildLogicalCondition c).1 ≠ "" then a ++ [(buildLogicalCondition c).1]
        else a) a
      = l2.foldl (fun a c =>
          if (buildLogicalCondition c).1 ≠ "" then a ++ [(buildLogicalCondition c).1]
          else a) a := by
  induction l1 generalizing l2 with
  | nil =>
    cases l2 with
    | nil => intro a; rfl
    | cons b bs => simp at h
  | cons c cs ih =>
    cases l2 with
    | nil => simp at h
    | cons d ds =>
      simp only [List.map_cons, List.cons.injEq] at h
      intro a
      simp only [List.foldl_cons]
      rw [buildLogicalCondition_fst_shape h.1]
      exact ih h.2 _

/-- The seed of the WHERE accumulator depends only on the filters'
shapes. -/
theorem whereStart_fst_shape {l1 l2 : List Filter}
    (h : l1.map filterShape = l2.map filterShape) :
    (whereStart l1).1 = (whereStart l2).1 := by
  have hlen : l1.length = l2.length := by
    simpa using congrArg List.length h
  have hs := buildWhereClauseFromFilters_fst_shape h
  simp only [whereStart]
  by_cases hl : l1.length > 0
  · have hl2 : l2.length > 0 := hlen ▸ hl
    rw [if_pos hl, if_pos hl2]
    by_cases hne : (buildWhereClauseFromFilters l1).1 ≠ ""
    · have hne2 : (buildWhereClauseFromFilters l2).1 ≠ "" := hs ▸ hne
      rw [if_pos hne, if_pos hne2, hs]
    · have hne2 : ¬((buildWhereClauseFromFilters l2).1 ≠ "") := by
        rw [← hs]; exact hne
      simp [hne, hne2]
  · have hl2 : ¬(l2.length > 0) := by rw [← hlen]; exact hl
    simp [hl, hl2]

/-- The full WHERE clause text depends only on the request's shape. -/
theorem buildWhereClause_fst_shape {p q : QueryParameters}
    (hf : p.filters.map filterShape = q.filters.map filterShape)
    (hc : p.conditions.map condShape = q.conditions.map condShape) :
    (buildWhereClause p).1 = (buildWhereClause q).1 := by
  have h1 : (p.conditions.foldl whereAccumStep (whereStart p.filters)).1
      = (q.conditions.foldl whereAccumStep (whereStart q.filters)).1 := by
    rw [whereFold_fst, whereFold_fst, whereStart_fst_shape hf]
    exact textFold_congr hc _
  simp only [buildWhereClause]
  rw [h1]
  by_cases he : (q.conditions.foldl whereAccumStep (whereStart q.filters)).1.isEmpty
      = true <;> simp [he]

/-- The LIMIT/OFFSET text depends only on which window fields are
present. -/
theorem buildLimitClause_fst {l1 l2 o1 o2 : Option Int}
    (hl : l1.isSome = l2.isSome) (ho : o1.isSome = o2.isSome) :
    (buildLimitClause l1 o1).1 = (buildLimitClause l2 o2).1 := by
  cases l1 <;> cases l2 <;> cases o1 <;> cases o2 <;>
    simp_all [buildLimitClause]

/-! ## Claim C1: values travel as bound parameters, never in the SQL -/

/-- C1: request values never reach the SQL text, only the parameter
vector: (1) two requests with the same shape (same table, projection,
order keys, filter columns/operators, `in`-arities, null flags, and window
presence) compile to the SAME `SELECT` text even when every filter value
and window number differs — so no value content can be interpolated; (2)
each comparison operator binds the raw value as the single parameter; (3)
`in` binds each trimmed list element; (4) the window values travel as the
`LIMIT ? OFFSET ?` parameters; (5, 6) INSERT and UPDATE bind exactly the
body values (then the filter parameters). -/
theorem c1_request_values_travel_as_parameters :
    (∀ p q : QueryParameters, paramsShape p = paramsShape q →
      (BuildSelect p).toOption.map Prod.fst
        = (BuildSelect q).toOption.map Prod.fst)
    ∧ (∀ f : Filter,
        f.operator ∈ ([.opEqual, .opNotEqual, .opGreaterThan, .opGreaterEqual,
          .opLessThan, .opLessEqual, .opLike, .opILike] : List FilterOperator) →
        (buildFilterCondition f).2 = [SQLArg.str f.value])
    ∧ (∀ f : Filter, f.operator = .opIn →
        (buildFilterCondition f).2
          = (strSplitOn f.value ",").map (fun v => SQLArg.str (strTrim v)))
    ∧ (∀ l o : Int, buildLimitClause (some l) (some o)
          = ("LIMIT ? OFFSET ?", [SQLArg.int l, SQLArg.int o]))
    ∧ (∀ (tb : String) (d : List (String × SQLArg)), d ≠ [] →
        (BuildInsert tb d).toOption.map Prod.snd = some (d.map Prod.snd))
    ∧ (∀ (tb : String) (d : List (String × SQLArg)) (fs : List Filter),
        d ≠ [] →
        (BuildUpdate tb d fs).toOption.map Prod.snd
          = some (d.map Prod.snd ++ (buildWhereClauseFromFilters fs).2)) := by
  refine ⟨?_, ?_, ?_, ?_, ?_, ?_⟩
  · intro p q h
    simp only [paramsShape, Prod.mk.injEq] at h
    obtain ⟨ht, hs, ho, hf, hc, hl, hoff⟩ := h
    have hsql : ∀ r : QueryParameters,
        (BuildSelect r).toOption.map Prod.fst
          = some (strReplaceAll (strTrim ("SELECT " ++ buildSelectClause r.select
              ++ " " ++ ("FROM " ++ quoteIdentifier r.table) ++ " "
              ++ (buildWhereClause r).1 ++ " " ++ buildOrderClause r.order
              ++ " " ++ (buildLimitClause r.limit r.offset).1)) "  " " ") :=
      fun r => rfl
    rw [hsql, hsql, ht, hs, ho, buildWhereClause_fst_shape hf hc,
      buildLimitClause_fst hl hoff]
  · intro f h
    obtain ⟨c, op, v⟩ := f
    simp only [List.mem_cons, List.not_mem_nil, or_false] at h
    rcases h with h | h | h | h | h | h | h | h <;> subst h <;> rfl
  · intro f h
    obtain ⟨c, op, v⟩ := f
    subst h
    rfl
  · intro l o
    rfl
  · intro tb d h
    cases d with
    | nil => exact absurd rfl h
    | cons x xs => rfl
  · intro tb d fs h
    cases d with
    | nil => exact absurd rfl h
    | cons x xs => rfl

/-- Witness for C1: two concrete requests differing ONLY in the filter
value (18 vs 99) and the limit (10 vs 12345) compile to the same SQL text;
the values land in the parameter vectors of the respective builders. -/
theorem c1_request_values_travel_as_parameters_witness :
    paramsShape ⟨[⟨"age", .opGreaterThan, "18"⟩], [], [⟨"id", "asc", ""⟩],
        some 10, none, "users", []⟩
      = paramsShape ⟨[⟨"age", .opGreaterThan, "99"⟩], [], [⟨"id", "asc", ""⟩],
        some 12345, none, "users", []⟩
    ∧ (BuildSelect ⟨[⟨"age", .opGreaterThan, "18"⟩], [], [⟨"id", "asc", ""⟩],
        some 10, none, "users", []⟩).toOption.map Prod.fst
      = (BuildSelect ⟨[⟨"age", .opGreaterThan, "99"⟩], [], [⟨"id", "asc", ""⟩],
        some 12345, none, "users", []⟩).toOption.map Prod.fst
    ∧ (buildFilterCondition ⟨"name", .opLike, "secret"⟩).2
      = [SQLArg.str "secret"]
    ∧ (buildFilterCondition ⟨"id", .opIn, "1, 2"⟩).2
      = (strSplitOn "1, 2" ",").map (fun v => SQLArg.str (strTrim v))
    ∧ (BuildInsert "users" [("name", SQLArg.str "Dee")]).toOption.map Prod.snd
      = some [SQLArg.str "Dee"]
    ∧ (BuildUpdate "users" [("name", SQLArg.str "Dee")] []).toOption.map Prod.snd
      = some ([SQLArg.str "Dee"]
          ++ (buildWhereClauseFromFilters []).2) :=
  ⟨by rfl,
   c1_request_values_travel_as_parameters.1 _ _ (by rfl),
   c1_request_values_travel_as_parameters.2.1 ⟨"name", .opLike, "secret"⟩
     (by decide),
   c1_request_values_travel_as_parameters.2.2.1 ⟨"id", .opIn, "1, 2"⟩ rfl,
   c1_request_values_travel_as_parameters.2.2.2.2.1 "users"
     [("name", SQLArg.str "Dee")] (by decide),
   c1_request_values_travel_as_parameters.2.2.2.2.2 "users"
     [("name", SQLArg.str "Dee")] [] (by decide)⟩

/-! ## Policy-engine lemmas (for C8 and C9) -/

/-- `evaluatePolicyExpression` never binds a parameter: its argument list
is empty for every expression and every principal. -/
theorem evaluatePolicyExpression_snd_nil (e : String) (ctx : AuthContext) :
    (evaluatePolicyExpression e ctx).2 = [] := by
  simp only [evaluatePolicyExpression]
  split <;> rfl

/-- `injectSecurityConditions` passes its argument list through
unchanged. -/
theorem injectSecurityConditions_snd (q c : String) (a : List SQLArg) :
    (injectSecurityConditions q c a).2 = a := by
  simp only [injectSecurityConditions]
  split_ifs <;> rfl

/-- The policy fold accumulates no arguments (each evaluation contributes
an empty list). -/
theorem policyFold_snd (ctx : AuthContext) (l : List Policy) :
    ∀ acc : List String × List SQLArg,
    (l.foldl (policyAccumStep ctx) acc).2 = acc.2 := by
  induction l with
  | nil => intro acc; rfl
  | cons p ps ih =>
    intro acc
    simp only [List.foldl_cons]
    rw [ih]
    simp only [policyAccumStep]
    by_cases h : (evaluatePolicyExpression p.expression ctx).1 ≠ "" <;>
      simp [h, evaluatePolicyExpression_snd_nil]

/-- When every applicable policy evaluates to a non-empty condition, the
policy fold collects exactly the evaluated conditions in order. -/
theorem policyFold_fst (ctx : AuthContext) (l : List Policy)
    (h : ∀ p ∈ l, (evaluatePolicyExpression p.expression ctx).1 ≠ "") :
    ∀ acc : List String × List SQLArg,
    (l.foldl (policyAccumStep ctx) acc).1
      = acc.1 ++ l.map (fun p => (evaluatePolicyExpression p.expression ctx).1) := by
  induction l with
  | nil => intro acc; simp
  | cons p ps ih =>
    intro acc
    simp only [List.foldl_cons, List.map_cons]
    rw [ih (fun x hx => h x (List.mem_cons_of_mem p hx))]
    simp only [policyAccumStep]
    have hp := h p (List.mem_cons_self p ps)
    simp [hp]

/-- A string starting with `UPDATE` does not start with `SELECT`. -/
theorem startsWith_update_not_select (s : String)
    (h : strStartsWith s "UPDATE" = true) : strStartsWith s "SELECT" = false := by
  simp only [strStartsWith] at h ⊢
  cases hs : s.data with
  | nil => rw [hs] at h; simp [List.isPrefixOf] at h
  | cons c cs =>
    rw [hs] at h
    simp only [show ("UPDATE").data = ['U', 'P', 'D', 'A', 'T', 'E'] from rfl,
      List.isPrefixOf, Bool.and_eq_true, beq_iff_eq] at h
    rw [← h.1]
    simp only [List.isPrefixOf]
    rw [show (('S' : Char) == 'U') = false from rfl]
    simp

/-- A string starting with `DELETE` does not start with `SELECT`. -/
theorem startsWith_delete_not_select (s : String)
    (h : strStartsWith s "DELETE" = true) : strStartsWith s "SELECT" = false := by
  simp only [strStartsWith] at h ⊢
  cases hs : s.data with
  | nil => rw [hs] at h; simp [List.isPrefixOf] at h
  | cons c cs =>
    rw [hs] at h
    simp only [show ("DELETE").data = ['D', 'E', 'L', 'E', 'T', 'E'] from rfl,
      List.isPrefixOf, Bool.and_eq_true, beq_iff_eq] at h
    rw [← h.1]
    simp only [List.isPrefixOf]
    rw [show (('S' : Char) == 'D') = false from rfl]
    simp

/-! ## Claim C8: OR-combination and WHERE conjunction -/

/-- Counterexample for C8 as stated: on a SELECT whose WHERE clause is
followed by ORDER BY, the source appends ` AND (P)` at the very END of the
statement text, AFTER the ORDER BY — it does not conjoin `P` with the
existing WHERE clause (the spec-faithful `specConjoinWithWhere` places
`P` inside the WHERE clause and yields a different statement). -/
theorem c8_counterexample_and_appended_after_order_by :
    (ApplyPolicies [⟨"p1", "posts", "SELECT", "is_public = TRUE", ""⟩]
        "SELECT * FROM `posts` WHERE `p` = ? ORDER BY `id` ASC"
        ⟨[], [], [], none, none, "posts", []⟩ ⟨true, "42", "user", "", [], ""⟩).1
      = "SELECT * FROM `posts` WHERE `p` = ? ORDER BY `id` ASC AND (is_public = TRUE)"
    ∧ specConjoinWithWhere "SELECT * FROM `posts` WHERE `p` = ? ORDER BY `id` ASC"
        "is_public = TRUE"
      = "SELECT * FROM `posts` WHERE `p` = ? AND (is_public = TRUE) ORDER BY `id` ASC"
    ∧ (ApplyPolicies [⟨"p1", "posts", "SELECT", "is_public = TRUE", ""⟩]
        "SELECT * FROM `posts` WHERE `p` = ? ORDER BY `id` ASC"
        ⟨[], [], [], none, none, "posts", []⟩ ⟨true, "42", "user", "", [], ""⟩).1
      ≠ specConjoinWithWhere "SELECT * FROM `posts` WHERE `p` = ? ORDER BY `id` ASC"
          "is_public = TRUE" := by
  refine ⟨?_, ?_, ?_⟩ <;> decide

/-- C8 amended: the applicable policy conditions are combined with ` OR `
and handed to the injection step with an empty argument list; for a SELECT,
UPDATE or DELETE statement that already contains ` WHERE `, the
parenthesised predicate is appended with ` AND ` at the END of the
statement text (which coincides with conjoining into the WHERE clause only
when WHERE is the final clause); an admin principal does not skip
injection — each of its policy expressions evaluates to the tautology
`1=1` instead. -/
theorem c8_or_combined_predicate_appended :
    (∀ (policies : List Policy) (query : String) (params : QueryParameters)
        (ctx : AuthContext),
      getPoliciesForTable policies params.table (determineActionFromQuery query) ≠ [] →
      (∀ p ∈ getPoliciesForTable policies params.table (determineActionFromQuery query),
          (evaluatePolicyExpression p.expression ctx).1 ≠ "") →
      ApplyPolicies policies query params ctx
        = injectSecurityConditions query
            (strIntercalate " OR "
              ((getPoliciesForTable policies params.table
                  (determineActionFromQuery query)).map
                (fun p => (evaluatePolicyExpression p.expression ctx).1)))
            [])
    ∧ (∀ (query condition : String) (args : List SQLArg),
        strStartsWith (strToUpper query) "SELECT" = true →
        strContains (strToUpper query) " WHERE " = true →
        injectSecurityConditions query condition args
          = (query ++ " AND (" ++ condition ++ ")", args))
    ∧ (∀ (query condition : String) (args : List SQLArg),
        (strStartsWith (strToUpper query) "UPDATE" = true
          ∨ strStartsWith (strToUpper query) "DELETE" = true) →
        strContains (strToUpper query) " WHERE " = true →
        injectSecurityConditions query condition args
          = (query ++ " AND (" ++ condition ++ ")", args))
    ∧ (∀ (expression : String) (ctx : AuthContext),
        ctx.authenticated = true → ctx.role = "admin" →
        evaluatePolicyExpression expression ctx = ("1=1", [])) := by
  refine ⟨?_, ?_, ?_, ?_⟩
  · intro policies query params ctx h1 h2
    simp only [ApplyPolicies]
    have hemp : (getPoliciesForTable policies params.table
        (determineActionFromQuery query)).isEmpty = false := by
      cases htp : getPoliciesForTable policies params.table
          (determineActionFromQuery query) with
      | nil => exact absurd htp h1
      | cons a as => rfl
    rw [hemp]
    simp only [Bool.false_eq_true, if_false]
    rw [policyFold_fst ctx _ h2 ([], []), policyFold_snd ctx _ ([], [])]
    simp only [List.nil_append]
    have hm : ((getPoliciesForTable policies params.table
          (determineActionFromQuery query)).map
        (fun p => (evaluatePolicyExpression p.expression ctx).1)).isEmpty = false := by
      cases htp : getPoliciesForTable policies params.table
          (determineActionFromQuery query) with
      | nil => exact absurd htp h1
      | cons a as => rfl
    rw [hm]
    simp
  · intro query condition args h1 h2
    simp [injectSecurityConditions, h1, h2]
  · intro query condition args h1 h2
    have hsel : strStartsWith (strToUpper query) "SELECT" = false := by
      rcases h1 with h1 | h1
      · exact startsWith_update_not_select _ h1
      · exact startsWith_delete_not_select _ h1
    rcases h1 with h1 | h1 <;> simp [injectSecurityConditions, hsel, h1, h2]
  · intro expression ctx h1 h2
    simp [evaluatePolicyExpression, h1, h2]

/-- Witness for C8 (amended) at the end-to-end policy of §8: one applicable
SELECT policy on `posts`, a non-admin principal, and a query carrying a
WHERE clause. -/
theorem c8_or_combined_predicate_appended_witness :
    getPoliciesForTable [⟨"p1", "posts", "SELECT", "is_public = TRUE", ""⟩]
        "posts" (determineActionFromQuery
          "SELECT * FROM `posts` WHERE `p` = ? ORDER BY `id` ASC") ≠ []
    ∧ ApplyPolicies [⟨"p1", "posts", "SELECT", "is_public = TRUE", ""⟩]
        "SELECT * FROM `posts` WHERE `p` = ? ORDER BY `id` ASC"
        ⟨[], [], [], none, none, "posts", []⟩ ⟨true, "42", "user", "", [], ""⟩
      = injectSecurityConditions
          "SELECT * FROM `posts` WHERE `p` = ? ORDER BY `id` ASC"
          (strIntercalate " OR "
            ((getPoliciesForTable [⟨"p1", "posts", "SELECT", "is_public = TRUE", ""⟩]
                (⟨[], [], [], none, none, "posts", []⟩ : QueryParameters).table
                (determineActionFromQuery
                  "SELECT * FROM `posts` WHERE `p` = ? ORDER BY `id` ASC")).map
              (fun p => (evaluatePolicyExpression p.expression
                ⟨true, "42", "user", "", [], ""⟩).1)))
          []
    ∧ evaluatePolicyExpression "x = 1" ⟨true, "7", "admin", "", [], ""⟩ = ("1=1", []) :=
  ⟨by decide,
   c8_or_combined_predicate_appended.1
     [⟨"p1", "posts", "SELECT", "is_public = TRUE", ""⟩]
     "SELECT * FROM `posts` WHERE `p` = ? ORDER BY `id` ASC"
     ⟨[], [], [], none, none, "posts", []⟩ ⟨true, "42", "user", "", [], ""⟩
     (by decide) (by decide),
   c8_or_combined_predicate_appended.2.2.2 "x = 1"
     ⟨true, "7", "admin", "", [], ""⟩ rfl rfl⟩

/-! ## Claim C9: idempotence of the parameter list -/

/-- `ApplyPolicies` never appends parameters: the security-argument
component is empty on every run (string substitution binds nothing). -/
theorem applyPolicies_snd_nil (policies : List Policy) (query : String)
    (params : QueryParameters) (ctx : AuthContext) :
    (ApplyPolicies policies query params ctx).2 = [] := by
  simp only [ApplyPolicies]
  split
  · rfl
  · split
    · rfl
    · rw [injectSecurityConditions_snd, policyFold_snd]

/-- C9: applying the policy-application step twice yields the same SQL
parameter list as applying it once (both security-argument lists are in
fact empty, because `evaluatePolicyExpression` substitutes text and never
binds a parameter). -/
theorem c9_apply_policies_idempotent_params (policies : List Policy)
    (query : String) (params : QueryParameters) (ctx : AuthContext) :
    (ApplyPolicies policies (ApplyPolicies policies query params ctx).1
        params ctx).2
      = (ApplyPolicies policies query params ctx).2 := by
  rw [applyPolicies_snd_nil, applyPolicies_snd_nil]

end SqlitREST
